import Mathlib

set_option maxRecDepth 100000

/-!
Verification development for the USD single-axis stepper firmware.

Shallow embedding of the core subsystems named by the specification:
the COBS byte-stuffing codec (`src/firmware/lib/usd_protocol/cobs.c`),
the CRC-16/CCITT engine (`src/common/protocol/crc16.h`),
the trapezoidal and S-curve trajectory planners/executors
(`src/firmware/lib/usd_core/trajectory.cpp`),
the two pulse-generator variants
(`src/firmware/lib/usd_drivers/mcpwm_stepper.cpp`, `timer_stepper.cpp`),
and the motion controller (`src/firmware/lib/usd_core/motion_controller.cpp`).

Machine integers are modelled as `Nat`/`Int`; where the source narrows a
value with a cast, the model reduces modulo the corresponding power of two.
Unsigned 64-bit intermediates that provably cannot overflow for 32-bit
inputs are modelled with exact `Nat` arithmetic.
-/

namespace Usd

/-- Truncating cast to `uint32`, as `Nat`. -/
def u32 (x : Nat) : Nat := x % 2 ^ 32

/-- Truncating cast of a signed value to `uint32` (two's-complement wrap),
as in `static_cast<uint32_t>` applied to an `int64_t`. -/
def u32i (x : Int) : Nat := (x % 2 ^ 32).toNat

/-- Truncating cast to `int32` (two's-complement), as `Int`. -/
def i32 (x : Int) : Int := (x + 2 ^ 31) % 2 ^ 32 - 2 ^ 31

-- ─────────────────────────────────────────────────────────────────────────────
-- COBS codec (src/firmware/lib/usd_protocol/cobs.c)
-- ─────────────────────────────────────────────────────────────────────────────

/-- The encoder loop of `cobs_encode` (cobs.c lines 25-50).  `block` holds the
data bytes of the block currently being written (the C code writes them
directly to the output and patches the code byte at `code_idx` afterwards;
here the block is emitted together with its code byte once it closes).
A zero input byte closes the block; a block also closes when its code
counter would reach `0xFF`, i.e. when it already holds 253 data bytes.
At end of input the final code byte is written. -/
def encodeLoop : List Nat → List Nat → List Nat
  | [], block => (block.length + 1) :: block
  | b :: rest, block =>
    if b = 0 then
      ((block.length + 1) :: block) ++ encodeLoop rest []
    else if block.length = 253 then
      (255 :: (block ++ [b])) ++ encodeLoop rest []
    else
      encodeLoop rest (block ++ [b])

/-- Model of `cobs_encode` (cobs.c lines 11-53).  The C function returns the number of
bytes written, with 0 meaning error (empty input or input longer than
`COBS_MAX_INPUT_SIZE = 250`); the model returns the written bytes, with `[]`
for the error cases. -/
def cobs_encode (input : List Nat) : List Nat :=
  if input.length = 0 ∨ 250 < input.length then [] else encodeLoop input []

/-- The decoder loop of `cobs_decode` (cobs.c lines 63-89), with `none` for
the error returns: a zero code byte, or input ending inside a block.  After a
complete block, a delimiter byte is emitted iff the code byte is below `0xFF`
and input remains.  The structural `fuel` argument bounds the number of
blocks; every block consumes at least its code byte, so the initial fuel
`input.length` used by `cobs_decode` makes the fuel-exhaustion case
unreachable. -/
def decodeLoop : Nat → List Nat → Option (List Nat)
  | _, [] => some []
  | 0, _ :: _ => none
  | fuel + 1, code :: rest =>
    if code = 0 then none
    else if rest.length < code - 1 then none
    else
      match decodeLoop fuel (rest.drop (code - 1)) with
      | none => none
      | some out =>
        if code < 255 ∧ rest.drop (code - 1) ≠ [] then
          some (rest.take (code - 1) ++ 0 :: out)
        else
          some (rest.take (code - 1) ++ out)

/-- Model of `cobs_decode` (cobs.c lines 55-92).  The C function returns the number of
bytes written, with 0 on error; the model returns the written bytes, `[]` on
error (matching the caller-visible return value). -/
def cobs_decode (input : List Nat) : List Nat :=
  (decodeLoop input.length input).getD []

-- ─────────────────────────────────────────────────────────────────────────────
-- CRC-16/CCITT (src/common/protocol/crc16.h)
-- ─────────────────────────────────────────────────────────────────────────────

/-- Modelled from the spec: the implementation file `crc16.c` is not part of
the sources (only the header `crc16.h`, its tests and callers are), so the
engine is modelled from spec section 4.2: polynomial `0x1021`, initial value
`0xFFFF`, no input/output reflection, no final XOR.  One shift-and-reduce
step of the bitwise CRC. -/
def crc16_step (crc : Nat) : Nat :=
  if 32768 ≤ crc % 65536 then ((crc * 2) % 65536) ^^^ 0x1021
  else (crc * 2) % 65536

/-- Modelled from the spec: absorb one input byte (no reflection), then run
eight shift-and-reduce steps. -/
def crc16_updateByte (crc byte : Nat) : Nat :=
  Nat.iterate crc16_step 8 ((crc ^^^ (byte * 256)) % 65536)

/-- Modelled from the spec: `crc16_update(crc, data, length)` — resume a
running CRC over a byte sequence. -/
def crc16_update (crc : Nat) (data : List Nat) : Nat :=
  data.foldl crc16_updateByte crc

/-- Modelled from the spec: `crc16_calculate(data, length)` — CRC-16/CCITT
from the initial value `0xFFFF`. -/
def crc16_calculate (data : List Nat) : Nat :=
  crc16_update 0xFFFF data

-- ─────────────────────────────────────────────────────────────────────────────
-- Pulse generators (mcpwm_stepper.cpp, timer_stepper.cpp)
-- ─────────────────────────────────────────────────────────────────────────────

/-- Model of `McpwmStepper::setFrequency` (mcpwm_stepper.cpp lines 150-172) acting on
the stored frequency `stored`: returns the C return value and the new stored
frequency.  `MIN_FREQUENCY = 1`, `MAX_FREQUENCY = 500000` (mcpwm_stepper.h
lines 222-223).  Out-of-range requests return `false` and leave the stored
frequency untouched. -/
def McpwmStepper.setFrequency (stored freq : Nat) : Bool × Nat :=
  if freq < 1 ∨ 500000 < freq then (false, stored) else (true, freq)

/-- Model of `TimerStepper::setFrequency` (timer_stepper.cpp lines 186-202):
`MIN_FREQUENCY = 1`, `MAX_FREQUENCY = 50000` (timer_stepper.h
lines 222-223). -/
def TimerStepper.setFrequency (stored freq : Nat) : Bool × Nat :=
  if freq < 1 ∨ 50000 < freq then (false, stored) else (true, freq)

-- ─────────────────────────────────────────────────────────────────────────────
-- Trapezoidal trajectory (trajectory.cpp lines 18-402, trajectory.h)
-- ─────────────────────────────────────────────────────────────────────────────

/-- Wrapping `uint64` product. -/
def m64 (a b : Nat) : Nat := a * b % 2 ^ 64

/-- Wrapping `uint64` sum. -/
def a64 (a b : Nat) : Nat := (a + b) % 2 ^ 64

/-- Wrapping `uint64` difference (arguments already below `2 ^ 64`). -/
def s64 (a b : Nat) : Nat := (a + 2 ^ 64 - b) % 2 ^ 64

/-- Cast of a `uint64` value to `int64`. -/
def i64 (x : Nat) : Int := ((x : Int) + 2 ^ 63) % 2 ^ 64 - 2 ^ 63

/-- Bisection loop for the integer square root: maintains `lo² ≤ n` and
narrows `[lo, hi]` until it collapses.  The fuel is structural; 128
halvings cover any 64-bit value. -/
def isqrtLoop (n : Nat) : Nat → Nat → Nat → Nat
  | 0, lo, _ => lo
  | fuel + 1, lo, hi =>
    if hi ≤ lo then lo
    else
      let mid := (lo + hi + 1) / 2
      if mid * mid ≤ n then isqrtLoop n fuel mid hi
      else isqrtLoop n fuel lo (mid - 1)

/-- Computes `⌊√n⌋`, the largest `r` with `r² ≤ n`: the integer value of the
C library's `sqrt` on exactly representable inputs.  (A structural
bisection is used instead of `Nat.sqrt`, whose well-founded recursion the
kernel cannot evaluate.) -/
def isqrt (n : Nat) : Nat := isqrtLoop n 128 0 n

/-- Model of `TrajectoryParams` (trajectory.h lines 33-40). `distance` is `int32_t`,
the rest `uint32_t`. -/
structure TrajectoryParams where
  distance : Int
  max_velocity : Nat
  acceleration : Nat
  deceleration : Nat
  start_velocity : Nat
  end_velocity : Nat
deriving Repr, DecidableEq

/-- Model of `TrajectoryTiming` (trajectory.h lines 45-57). -/
structure TrajectoryTiming where
  accel_time_us : Nat
  cruise_time_us : Nat
  decel_time_us : Nat
  total_time_us : Nat
  accel_distance : Int
  cruise_distance : Int
  decel_distance : Int
  peak_velocity : Nat
  is_triangle : Bool
deriving Repr, DecidableEq

/-- Model of `TrajectoryPhase` (trajectory.h lines 22-28). -/
inductive TrajectoryPhase
  | IDLE
  | ACCEL
  | CRUISE
  | DECEL
  | COMPLETE
deriving Repr, DecidableEq

/-- Result of a successful `TrapezoidalTrajectory::plan`: the stored
normalized parameters `params_` (positive distance, inherited deceleration),
the computed `timing_`, and `direction_`. -/
structure TrapPlanned where
  params : TrajectoryParams
  timing : TrajectoryTiming
  direction : Int
deriving Repr, DecidableEq

/-- Model of `TrapezoidalTrajectory::computeTrapezoidal` (trajectory.cpp lines
82-112), for normalized parameters `p` (distance already positive). -/
def computeTrapezoidal (p : TrajectoryParams) : TrajectoryTiming :=
  let v := p.max_velocity
  let a := p.acceleration
  let d := p.deceleration
  let accel_distance := i32 (v * v / (2 * a) : Nat)
  let accel_time_us := u32 (v * 1000000 / a)
  let decel_distance := i32 (v * v / (2 * d) : Nat)
  let decel_time_us := u32 (v * 1000000 / d)
  let cruise_distance := i32 (p.distance - accel_distance - decel_distance)
  let cruise_time_us :=
    if 0 < v then u32 (m64 ((cruise_distance % 2 ^ 64).toNat) 1000000 / v)
    else 0
  { accel_time_us := accel_time_us
    cruise_time_us := cruise_time_us
    decel_time_us := decel_time_us
    total_time_us := u32 (accel_time_us + cruise_time_us + decel_time_us)
    accel_distance := accel_distance
    cruise_distance := cruise_distance
    decel_distance := decel_distance
    peak_velocity := p.max_velocity
    is_triangle := false }

/-- Model of `TrapezoidalTrajectory::computeTriangular` (trajectory.cpp lines
114-156).  The one floating-point square root
`(uint32_t)sqrt((2.0*dist*a*d)/(a+d))` is modelled exactly over the
rationals as `isqrt (2*dist*a*d / (a+d))`
(using `⌊√⌊q⌋⌋ = ⌊√q⌋` for rational `q ≥ 0`); `double` rounding noise on
astronomically large products is not modelled. -/
def computeTriangular (p : TrajectoryParams) : TrajectoryTiming :=
  let dist := p.distance.toNat
  let a := p.acceleration
  let d := p.deceleration
  let v_peak0 := isqrt (2 * dist * a * d / (a + d))
  let v_peak := if p.max_velocity < v_peak0 then p.max_velocity else v_peak0
  let accel_distance := i32 (v_peak * v_peak / (2 * a) : Nat)
  let decel_distance := i32 (p.distance - accel_distance)
  let accel_time_us := u32 (v_peak * 1000000 / a)
  let decel_time_us := u32 (v_peak * 1000000 / d)
  { accel_time_us := accel_time_us
    cruise_time_us := 0
    decel_time_us := decel_time_us
    total_time_us := u32 (accel_time_us + decel_time_us)
    accel_distance := accel_distance
    cruise_distance := 0
    decel_distance := decel_distance
    peak_velocity := v_peak
    is_triangle := true }

namespace TrapezoidalTrajectory

/-- Model of `TrapezoidalTrajectory::plan` (trajectory.cpp lines 35-80): reject zero
`max_velocity` or `acceleration`; inherit acceleration as deceleration when
unset; split the signed distance into magnitude and direction; choose the
trapezoidal profile when the acceleration and deceleration distances fit
inside the move, else the triangular profile. -/
def plan (p : TrajectoryParams) : Option TrapPlanned :=
  if p.max_velocity = 0 ∨ p.acceleration = 0 then none
  else
    let d := if p.deceleration = 0 then p.acceleration else p.deceleration
    let direction : Int := if 0 ≤ p.distance then 1 else -1
    let pn : TrajectoryParams :=
      { p with distance := (p.distance.natAbs : Int), deceleration := d }
    let v := pn.max_velocity
    let accel_dist := v * v / (2 * pn.acceleration)
    let decel_dist := v * v / (2 * pn.deceleration)
    let timing :=
      if accel_dist + decel_dist ≤ p.distance.natAbs then computeTrapezoidal pn
      else computeTriangular pn
    some { params := pn, timing := timing, direction := direction }

end TrapezoidalTrajectory

/-- Execution state of a started `TrapezoidalTrajectory` (the private fields
of trajectory.h lines 205-216 together with the planned data). -/
structure TrapState where
  planData : TrapPlanned
  phase : TrajectoryPhase
  elapsed_us : Nat
  current_position : Int
  current_velocity : Nat
  started : Bool
deriving Repr, DecidableEq

/-- The `TrajectoryState` snapshot returned by
`TrapezoidalTrajectory::update` (trajectory.h lines 62-69); the redundant
`float progress` field is not modelled. -/
structure TrajectoryStateR where
  phase : TrajectoryPhase
  elapsed_us : Nat
  position : Int
  velocity : Nat
  remaining : Int
deriving Repr, DecidableEq

namespace TrapezoidalTrajectory

/-- Model of `TrapezoidalTrajectory::start` (trajectory.cpp lines 162-173). -/
def start (pl : TrapPlanned) : TrapState :=
  { planData := pl
    phase := TrajectoryPhase.ACCEL
    elapsed_us := 0
    current_position := 0
    current_velocity := pl.params.start_velocity
    started := true }

/-- Model of `TrapezoidalTrajectory::updateAccel` (trajectory.cpp lines 218-242). -/
def updateAccel (s : TrapState) (dt_us : Nat) : TrapState :=
  let t := s.planData.timing
  let delta_v := s.planData.params.acceleration * dt_us / 1000000
  let v1 := u32 (s.current_velocity + u32 delta_v)
  let v2 := if t.peak_velocity ≤ v1 then t.peak_velocity else v1
  let delta_pos := v2 * dt_us / 1000000
  let pos := i32 (s.current_position + i32 (delta_pos : Int))
  let phase :=
    if t.accel_time_us ≤ s.elapsed_us then
      if t.is_triangle then TrajectoryPhase.DECEL else TrajectoryPhase.CRUISE
    else s.phase
  { s with current_velocity := v2, current_position := pos, phase := phase }

/-- Model of `TrapezoidalTrajectory::updateCruise` (trajectory.cpp lines 244-257). -/
def updateCruise (s : TrapState) (dt_us : Nat) : TrapState :=
  let t := s.planData.timing
  let v := t.peak_velocity
  let delta_pos := v * dt_us / 1000000
  let pos := i32 (s.current_position + i32 (delta_pos : Int))
  let phase :=
    if u32 (t.accel_time_us + t.cruise_time_us) ≤ s.elapsed_us then
      TrajectoryPhase.DECEL
    else s.phase
  { s with current_velocity := v, current_position := pos, phase := phase }

/-- Model of `TrapezoidalTrajectory::updateDecel` (trajectory.cpp lines 259-282). -/
def updateDecel (s : TrapState) (dt_us : Nat) : TrapState :=
  let p := s.planData.params
  let t := s.planData.timing
  let delta_v := p.deceleration * dt_us / 1000000
  let v1 :=
    if delta_v < s.current_velocity then u32 (s.current_velocity - u32 delta_v)
    else p.end_velocity
  let delta_pos := v1 * dt_us / 1000000
  let pos := i32 (s.current_position + i32 (delta_pos : Int))
  if p.distance ≤ pos ∨ t.total_time_us ≤ s.elapsed_us then
    { s with current_velocity := p.end_velocity, current_position := p.distance
             phase := TrajectoryPhase.COMPLETE }
  else
    { s with current_velocity := v1, current_position := pos }

/-- Model of `TrapezoidalTrajectory::update` (trajectory.cpp lines 175-216).  Note
that the early return for an idle/complete trajectory reports
`current_position_` WITHOUT multiplying by `direction_`, unlike the normal
path (line 209) and `getCurrentPosition` (lines 318-321). -/
def update (s : TrapState) (dt_us : Nat) : TrapState × TrajectoryStateR :=
  if ¬s.started ∨ s.phase = TrajectoryPhase.IDLE ∨
      s.phase = TrajectoryPhase.COMPLETE then
    (s, { phase := s.phase
          elapsed_us := s.elapsed_us
          position := s.current_position
          velocity := 0
          remaining := i32 (s.planData.params.distance - s.current_position) })
  else
    let s1 := { s with elapsed_us := u32 (s.elapsed_us + dt_us) }
    let s2 :=
      match s1.phase with
      | TrajectoryPhase.ACCEL => updateAccel s1 dt_us
      | TrajectoryPhase.CRUISE => updateCruise s1 dt_us
      | TrajectoryPhase.DECEL => updateDecel s1 dt_us
      | _ => s1
    (s2, { phase := s2.phase
           elapsed_us := s2.elapsed_us
           position := i32 (s2.current_position * s2.planData.direction)
           velocity := s2.current_velocity
           remaining := i32 ((s2.planData.params.distance -
                              s2.current_position) * s2.planData.direction) })

/-- Model of `TrapezoidalTrajectory::getCurrentPosition` (trajectory.cpp lines
318-321): the signed position, direction applied. -/
def getCurrentPosition (s : TrapState) : Int :=
  i32 (s.current_position * s.planData.direction)

/-- Iterate `update` a number of times with a fixed time step, keeping the
state (the per-call reports are recomputed where needed). -/
def run (s : TrapState) (dt_us : Nat) : Nat → TrapState
  | 0 => s
  | n + 1 => run (update s dt_us).1 dt_us n

end TrapezoidalTrajectory

-- ─────────────────────────────────────────────────────────────────────────────
-- S-curve trajectory (trajectory.cpp lines 424-922, trajectory.h)
-- ─────────────────────────────────────────────────────────────────────────────

/-- Model of `SCurveParams` (trajectory.h lines 280-285). -/
structure SCurveParams where
  distance : Int
  max_velocity : Nat
  max_acceleration : Nat
  max_jerk : Nat
deriving Repr, DecidableEq

/-- Model of `SCurveTiming` (trajectory.h lines 290-301). -/
structure SCurveTiming where
  t_jerk_accel : Nat
  t_const_accel : Nat
  t_cruise : Nat
  t_jerk_decel : Nat
  t_const_decel : Nat
  total_time_us : Nat
  v_achieved : Nat
  a_achieved : Nat
  is_reduced : Bool
deriving Repr, DecidableEq

/-- Model of `SCurvePhase` (trajectory.h lines 265-275). -/
inductive SCurvePhase
  | IDLE
  | JERK_ACCEL_RISE
  | CONST_ACCEL
  | JERK_ACCEL_FALL
  | CRUISE
  | JERK_DECEL_RISE
  | CONST_DECEL
  | JERK_DECEL_FALL
  | COMPLETE
deriving Repr, DecidableEq

/-- The jerk-phase duration `(uint64_t)(std::sqrt((double)v / j) * 1e6)`
used by `computeReducedProfile` (trajectory.cpp lines 602-603 and 637-638),
modelled exactly over the rationals: `1e6·√(v/j) = √(v·10¹²/j)` and
`⌊√⌊q⌋⌋ = ⌊√q⌋` for rational `q ≥ 0`; `double` rounding noise is not
modelled. -/
def sqrtJerkTime (v j : Nat) : Nat :=
  isqrt (v * 1000000000000 / j)

/-- The candidate total distance computed inside the binary-search loop of
`SCurveTrajectory::computeReducedProfile` (trajectory.cpp lines 592-618) for
a candidate peak velocity `v_try`.  Note that here `d_j2` is just
`v_end_a·t_j/10⁶` (line 616), a coarser formula than the full profile
uses. -/
def searchTotalDist (j a v_try : Nat) : Nat :=
  let t_j0 := a * 1000000 / j
  let v_jerk0 := a * a / (2 * j)
  let t_j := if v_try ≤ 2 * v_jerk0 then sqrtJerkTime v_try j else t_j0
  let v_jerk := if v_try ≤ 2 * v_jerk0 then v_try / 2 else v_jerk0
  let v_const := if 2 * v_jerk < v_try then v_try - 2 * v_jerk else 0
  let t_a := if 0 < a ∧ 0 < v_const then v_const * 1000000 / a else 0
  let d_j1 := m64 (m64 (m64 j t_j) t_j) t_j / 6000000000000000000
  let v_end_j1 := m64 (m64 j t_j) t_j / 2000000000000
  let d_a := a64 (m64 v_end_j1 t_a / 1000000)
                 (m64 (m64 a t_a) t_a / 2000000000000)
  let v_end_a := a64 v_end_j1 (m64 a t_a / 1000000)
  let d_j2 := m64 v_end_a t_j / 1000000
  m64 2 (a64 (a64 d_j1 d_a) d_j2)

/-- The 32-iteration binary search of `computeReducedProfile`
(trajectory.cpp lines 584-626): state `(v_low, v_high, v_achieved)`, fuel
counts the remaining iterations.  `v_try = (v_low + v_high) / 2` uses
wrapping `uint32` addition. -/
def searchLoop (j a dist : Nat) : Nat → Nat → Nat → Nat → Nat
  | 0, _, _, acc => acc
  | fuel + 1, lo, hi, acc =>
    let v_try := u32 (lo + hi) / 2
    if v_try = 0 then acc
    else if searchTotalDist j a v_try ≤ dist then
      searchLoop j a dist fuel (u32 (v_try + 1)) hi v_try
    else
      searchLoop j a dist fuel lo (v_try - 1) acc

/-- Model of `SCurveTrajectory::computeReducedProfile` (trajectory.cpp lines
570-658): binary-search the achievable peak velocity, fall back to 100 when
nothing fits, then fill in the timing with no cruise phase. -/
def computeReducedProfile (p : SCurveParams) (dist : Nat) : SCurveTiming :=
  let j := p.max_jerk
  let a := p.max_acceleration
  let found := searchLoop j a dist 32 0 p.max_velocity 0
  let v_achieved := if found = 0 then 100 else found
  let v_jerk := a * a / (2 * j)
  let t_j :=
    if v_achieved ≤ 2 * v_jerk then sqrtJerkTime v_achieved j
    else a * 1000000 / j
  let t_const_accel :=
    if v_achieved ≤ 2 * v_jerk then 0
    else u32 ((v_achieved - 2 * v_jerk) * 1000000 / a)
  let a_achieved :=
    if v_achieved ≤ 2 * v_jerk then u32 (m64 j t_j / 1000000)
    else u32 a
  let t_jerk_accel := u32 t_j
  { t_jerk_accel := t_jerk_accel
    t_const_accel := t_const_accel
    t_cruise := 0
    t_jerk_decel := t_jerk_accel
    t_const_decel := t_const_accel
    total_time_us := u32 (2 * t_jerk_accel + t_const_accel +
                          2 * t_jerk_accel + t_const_accel)
    v_achieved := v_achieved
    a_achieved := a_achieved
    is_reduced := true }

/-- The total acceleration-phase distance `d_j1 + d_a + d_j2` computed by
`SCurveTrajectory::computeFullProfile` (trajectory.cpp lines 524-546), in
the source's `uint64` arithmetic. -/
def fullAccelDist (p : SCurveParams) : Nat :=
  let j := p.max_jerk
  let a := p.max_acceleration
  let v := p.max_velocity
  let v_jerk := a * a / (2 * j)
  let t_j := u32 (a * 1000000 / j)
  let t_a := u32 (m64 (s64 v (2 * v_jerk)) 1000000 / a)
  let d_j1 := m64 (m64 (m64 j t_j) t_j) t_j / 6000000000000000000
  let v_end_j1 := m64 (m64 j t_j) t_j / 2000000000000
  let d_a := a64 (m64 v_end_j1 t_a / 1000000)
                 (m64 (m64 a t_a) t_a / 2000000000000)
  let v_end_a := a64 v_end_j1 (m64 a t_a / 1000000)
  let d_j2 := s64 (a64 (m64 v_end_a t_j / 1000000)
                       (m64 (m64 a t_j) t_j / 2000000000000))
                  (m64 (m64 (m64 j t_j) t_j) t_j / 6000000000000000000)
  a64 (a64 d_j1 d_a) d_j2

/-- The `cruise_dist` computed by `computeFullProfile` (trajectory.cpp line
550): the move magnitude minus the symmetric acceleration and deceleration
distances, in `int64` arithmetic. -/
def fullCruiseDist (p : SCurveParams) (dist : Nat) : Int :=
  (dist : Int) - i64 (a64 (fullAccelDist p) (fullAccelDist p))

/-- Model of `SCurveTrajectory::computeFullProfile` (trajectory.cpp lines 499-568);
falls through to `computeReducedProfile` when the cruise distance comes out
negative (line 552). -/
def computeFullProfile (p : SCurveParams) (dist : Nat) : SCurveTiming :=
  let j := p.max_jerk
  let a := p.max_acceleration
  let v := p.max_velocity
  let v_jerk := a * a / (2 * j)
  let t_jerk_accel := u32 (a * 1000000 / j)
  let t_const_accel := u32 (m64 (s64 v (2 * v_jerk)) 1000000 / a)
  let cruise_dist := fullCruiseDist p dist
  if cruise_dist < 0 then computeReducedProfile p dist
  else
    let t_cruise := u32 (m64 cruise_dist.toNat 1000000 / v)
    { t_jerk_accel := t_jerk_accel
      t_const_accel := t_const_accel
      t_cruise := t_cruise
      t_jerk_decel := t_jerk_accel
      t_const_decel := t_const_accel
      total_time_us := u32 (2 * t_jerk_accel + t_const_accel + t_cruise +
                            2 * t_jerk_accel + t_const_accel)
      v_achieved := u32 v
      a_achieved := u32 a
      is_reduced := false }

/-- Result of a successful `SCurveTrajectory::plan`: normalized parameters,
timing, direction, and the cumulative phase boundary times
`t_end_j1_ … t_end_d_` (trajectory.cpp lines 484-489). -/
structure SCurvePlanned where
  params : SCurveParams
  timing : SCurveTiming
  direction : Int
  t_end_j1 : Nat
  t_end_a : Nat
  t_end_j2 : Nat
  t_end_c : Nat
  t_end_j3 : Nat
  t_end_d : Nat
deriving Repr, DecidableEq

namespace SCurveTrajectory

/-- Model of `SCurveTrajectory::plan` (trajectory.cpp lines 445-497): reject a zero
`max_velocity`, `max_acceleration` or `max_jerk`; split the distance into
magnitude and direction; pick the reduced profile when two jerk ramps alone
reach (or overshoot) `max_velocity`, else try the full profile; precompute
the cumulative boundary times. -/
def plan (p : SCurveParams) : Option SCurvePlanned :=
  if p.max_velocity = 0 ∨ p.max_acceleration = 0 ∨ p.max_jerk = 0 then none
  else
    let direction : Int := if 0 ≤ p.distance then 1 else -1
    let dist := p.distance.natAbs
    let pn : SCurveParams := { p with distance := (dist : Int) }
    let v_jerk := p.max_acceleration * p.max_acceleration / (2 * p.max_jerk)
    let timing :=
      if p.max_velocity ≤ 2 * v_jerk then computeReducedProfile pn dist
      else computeFullProfile pn dist
    let t_end_j1 := timing.t_jerk_accel
    let t_end_a := u32 (t_end_j1 + timing.t_const_accel)
    let t_end_j2 := u32 (t_end_a + timing.t_jerk_accel)
    let t_end_c := u32 (t_end_j2 + timing.t_cruise)
    let t_end_j3 := u32 (t_end_c + timing.t_jerk_decel)
    let t_end_d := u32 (t_end_j3 + timing.t_const_decel)
    some { params := pn, timing := timing, direction := direction
           t_end_j1 := t_end_j1, t_end_a := t_end_a, t_end_j2 := t_end_j2
           t_end_c := t_end_c, t_end_j3 := t_end_j3, t_end_d := t_end_d }

end SCurveTrajectory

/-- Execution state of a started `SCurveTrajectory` (private fields of
trajectory.h lines 429-450 plus the planned data). -/
structure SCState where
  planData : SCurvePlanned
  phase : SCurvePhase
  elapsed_us : Nat
  phase_elapsed_us : Nat
  current_position : Int
  current_velocity : Nat
  current_acceleration : Int
  started : Bool
deriving Repr, DecidableEq

/-- The `SCurveState` snapshot returned by `SCurveTrajectory::update`
(trajectory.h lines 306-313); the `float progress` field is not
modelled. -/
structure SCurveStateR where
  phase : SCurvePhase
  elapsed_us : Nat
  position : Int
  velocity : Nat
  acceleration : Int
deriving Repr, DecidableEq

namespace SCurveTrajectory

/-- Model of `SCurveTrajectory::start` (trajectory.cpp lines 660-671). -/
def start (pl : SCurvePlanned) : SCState :=
  { planData := pl
    phase := SCurvePhase.JERK_ACCEL_RISE
    elapsed_us := 0
    phase_elapsed_us := 0
    current_position := 0
    current_velocity := 0
    current_acceleration := 0
    started := true }

/-- Model of `SCurveTrajectory::checkPhaseTransition` (trajectory.cpp lines
737-794): advance at most one phase per call when `elapsed_us_` has crossed
the current phase's cumulative boundary, snapping acceleration and velocity
at the documented boundaries. -/
def checkPhaseTransition (s : SCState) : SCState :=
  let pl := s.planData
  match s.phase with
  | SCurvePhase.JERK_ACCEL_RISE =>
    if pl.t_end_j1 ≤ s.elapsed_us then
      { s with
        phase := if 0 < pl.timing.t_const_accel then SCurvePhase.CONST_ACCEL
                 else SCurvePhase.JERK_ACCEL_FALL
        phase_elapsed_us := 0
        current_acceleration := i32 (pl.timing.a_achieved : Int) }
    else s
  | SCurvePhase.CONST_ACCEL =>
    if pl.t_end_a ≤ s.elapsed_us then
      { s with phase := SCurvePhase.JERK_ACCEL_FALL, phase_elapsed_us := 0 }
    else s
  | SCurvePhase.JERK_ACCEL_FALL =>
    if pl.t_end_j2 ≤ s.elapsed_us then
      { s with
        phase := if 0 < pl.timing.t_cruise then SCurvePhase.CRUISE
                 else SCurvePhase.JERK_DECEL_RISE
        phase_elapsed_us := 0
        current_acceleration := 0
        current_velocity := pl.timing.v_achieved }
    else s
  | SCurvePhase.CRUISE =>
    if pl.t_end_c ≤ s.elapsed_us then
      { s with phase := SCurvePhase.JERK_DECEL_RISE, phase_elapsed_us := 0 }
    else s
  | SCurvePhase.JERK_DECEL_RISE =>
    if pl.t_end_j3 ≤ s.elapsed_us then
      { s with
        phase := if 0 < pl.timing.t_const_decel then SCurvePhase.CONST_DECEL
                 else SCurvePhase.JERK_DECEL_FALL
        phase_elapsed_us := 0
        current_acceleration := -(i32 (pl.timing.a_achieved : Int)) }
    else s
  | SCurvePhase.CONST_DECEL =>
    if pl.t_end_d ≤ s.elapsed_us then
      { s with phase := SCurvePhase.JERK_DECEL_FALL, phase_elapsed_us := 0 }
    else s
  | SCurvePhase.JERK_DECEL_FALL =>
    if pl.timing.total_time_us ≤ s.elapsed_us then
      { s with phase := SCurvePhase.COMPLETE
               current_velocity := 0
               current_acceleration := 0
               current_position := pl.params.distance }
    else s
  | _ => s

/-- Model of `SCurveTrajectory::updateJerkUp` (trajectory.cpp lines 796-813):
`int64` jerk integration with a floor-at-zero guard on velocity. -/
def updateJerkUp (s : SCState) (dt_us : Nat) (jerk : Int) : SCState :=
  let da := Int.tdiv (jerk * dt_us) 1000000
  let acc := i32 (s.current_acceleration + i32 da)
  let dv := Int.tdiv (acc * dt_us) 1000000
  let v :=
    if dv < 0 ∧ s.current_velocity < u32i (-dv) then 0
    else u32i ((s.current_velocity : Int) + dv)
  let dp := Int.tdiv ((v : Int) * dt_us) 1000000
  let pos := i32 (s.current_position + i32 dp)
  { s with current_acceleration := acc, current_velocity := v
           current_position := pos }

/-- Model of `SCurveTrajectory::updateJerkDown` (trajectory.cpp lines 815-832). -/
def updateJerkDown (s : SCState) (dt_us : Nat) (jerk : Int) : SCState :=
  let da := Int.tdiv (jerk * dt_us) 1000000
  let acc := i32 (s.current_acceleration - i32 da)
  let dv := Int.tdiv (acc * dt_us) 1000000
  let v :=
    if dv < 0 ∧ s.current_velocity < u32i (-dv) then 0
    else u32i ((s.current_velocity : Int) + dv)
  let dp := Int.tdiv ((v : Int) * dt_us) 1000000
  let pos := i32 (s.current_position + i32 dp)
  { s with current_acceleration := acc, current_velocity := v
           current_position := pos }

/-- Model of `SCurveTrajectory::updateConstAccel` (trajectory.cpp lines 834-843):
no floor-at-zero guard here. -/
def updateConstAccel (s : SCState) (dt_us : Nat) : SCState :=
  let dv := Int.tdiv (s.current_acceleration * dt_us) 1000000
  let v := u32i ((s.current_velocity : Int) + dv)
  let dp := Int.tdiv ((v : Int) * dt_us) 1000000
  let pos := i32 (s.current_position + i32 dp)
  { s with current_velocity := v, current_position := pos }

/-- Model of `SCurveTrajectory::updateCruise` (trajectory.cpp lines 845-850). -/
def updateCruise (s : SCState) (dt_us : Nat) : SCState :=
  let dp := Int.tdiv ((s.current_velocity : Int) * dt_us) 1000000
  { s with current_position := i32 (s.current_position + i32 dp) }

/-- Model of `SCurveTrajectory::updateConstDecel` (trajectory.cpp lines 852-865). -/
def updateConstDecel (s : SCState) (dt_us : Nat) : SCState :=
  let dv := Int.tdiv (s.current_acceleration * dt_us) 1000000
  let v :=
    if dv < 0 ∧ s.current_velocity < u32i (-dv) then 0
    else u32i ((s.current_velocity : Int) + dv)
  let dp := Int.tdiv ((v : Int) * dt_us) 1000000
  let pos := i32 (s.current_position + i32 dp)
  { s with current_velocity := v, current_position := pos }

/-- Model of `SCurveTrajectory::update` (trajectory.cpp lines 673-735): early-out for
idle/complete trajectories, else advance the clocks, take at most one phase
transition, then integrate the (possibly new) phase. -/
def update (s : SCState) (dt_us : Nat) : SCState × SCurveStateR :=
  if ¬s.started ∨ s.phase = SCurvePhase.IDLE ∨
      s.phase = SCurvePhase.COMPLETE then
    (s, { phase := s.phase
          elapsed_us := s.elapsed_us
          position := i32 (s.current_position * s.planData.direction)
          velocity := s.current_velocity
          acceleration := s.current_acceleration })
  else
    let s1 := { s with elapsed_us := u32 (s.elapsed_us + dt_us)
                       phase_elapsed_us := u32 (s.phase_elapsed_us + dt_us) }
    let s2 := checkPhaseTransition s1
    let jerk := i32 (s.planData.params.max_jerk : Int)
    let s3 :=
      match s2.phase with
      | SCurvePhase.JERK_ACCEL_RISE => updateJerkUp s2 dt_us jerk
      | SCurvePhase.CONST_ACCEL => updateConstAccel s2 dt_us
      | SCurvePhase.JERK_ACCEL_FALL => updateJerkDown s2 dt_us jerk
      | SCurvePhase.CRUISE => updateCruise s2 dt_us
      | SCurvePhase.JERK_DECEL_RISE => updateJerkDown s2 dt_us jerk
      | SCurvePhase.CONST_DECEL => updateConstDecel s2 dt_us
      | SCurvePhase.JERK_DECEL_FALL => updateJerkUp s2 dt_us jerk
      | _ => s2
    (s3, { phase := s3.phase
           elapsed_us := s3.elapsed_us
           position := i32 (s3.current_position * s3.planData.direction)
           velocity := s3.current_velocity
           acceleration := s3.current_acceleration })

/-- Iterate `update` with a fixed time step. -/
def run (s : SCState) (dt_us : Nat) : Nat → SCState
  | 0 => s
  | n + 1 => run (update s dt_us).1 dt_us n

end SCurveTrajectory

-- ─────────────────────────────────────────────────────────────────────────────
-- Motion controller (motion_controller.cpp, motion_controller.h)
-- ─────────────────────────────────────────────────────────────────────────────

/-- Model of `MotionState` (motion_controller.h lines 28-36). -/
inductive MotionState
  | IDLE
  | ACCELERATING
  | CRUISING
  | DECELERATING
  | HOLDING
  | FAULT
  | HOMING
deriving Repr, DecidableEq

/-- Model of `MoveType` (motion_controller.h lines 41-46). -/
inductive MoveType
  | RELATIVE
  | ABSOLUTE
  | VELOCITY
  | HOMING
deriving Repr, DecidableEq

/-- Model of `ProfileType` (motion_controller.h lines 51-54). -/
inductive ProfileType
  | TRAPEZOIDAL
  | S_CURVE
deriving Repr, DecidableEq

/-- Model of `Direction` of the motor driver (`IDriver::setDirection`). -/
inductive Direction
  | CW
  | CCW
deriving Repr, DecidableEq

/-- Model of `MotionParams` (motion_controller.h lines 59-67). -/
structure MotionParams where
  target_position : Int
  max_velocity : Nat
  acceleration : Nat
  deceleration : Nat
  jerk : Nat
  profile : ProfileType
  move_type : MoveType
deriving Repr, DecidableEq

/-- Model of `MotionConfig` (motion_controller.h lines 85-93). -/
structure MotionConfig where
  default_velocity : Nat
  default_acceleration : Nat
  min_velocity : Nat
  position_tolerance : Nat
  enable_on_motion : Bool
  disable_on_idle : Bool
  idle_disable_ms : Nat
deriving Repr, DecidableEq

/-- Model of `DEFAULT_CONFIG` (motion_controller.cpp lines 31-39). -/
def DEFAULT_CONFIG : MotionConfig :=
  { default_velocity := 10000
    default_acceleration := 50000
    min_velocity := 100
    position_tolerance := 1
    enable_on_motion := true
    disable_on_idle := false
    idle_disable_ms := 5000 }

/-- The state of a `MotionController` together with its hardware
collaborators, abstracted at the capability level of spec section 6:
`hasDriver`/`hasStepper` model pointer attachment, `driverEnableOk` models
whether `IDriver::enable()` succeeds, `driverPosition` is whatever
`IDriver::getPosition()` currently reports (written by the outside world
between ticks), and the stepper keeps its stored frequency and running
flag (an attached stepper is assumed initialized). -/
structure Controller where
  hasDriver : Bool
  hasStepper : Bool
  driverEnableOk : Bool
  driverEnabled : Bool
  driverDirection : Direction
  driverPosition : Int
  stepperFreq : Nat
  stepperRunning : Bool
  config : MotionConfig
  state : MotionState
  current_position : Int
  target_position : Int
  current_velocity : Nat
  target_velocity : Nat
  active_params : MotionParams
  enabled : Bool
deriving Repr, DecidableEq

namespace MotionController

/-- Model of `McpwmStepper::setFrequency` as invoked by the controller (range check
1..500000; the controller ignores the returned flag). -/
def stepperSetFreq (s : Controller) (f : Nat) : Controller :=
  if f < 1 ∨ 500000 < f then s else { s with stepperFreq := f }

/-- Model of `McpwmStepper::start` as invoked by the controller: requires a non-zero
stored frequency (mcpwm_stepper.cpp lines 92-114). -/
def stepperStart (s : Controller) : Controller :=
  if s.stepperFreq = 0 then s else { s with stepperRunning := true }

/-- Model of `McpwmStepper::stop` (idempotent). -/
def stepperStop (s : Controller) : Controller :=
  { s with stepperRunning := false }

/-- Model of `MotionController::isEnabled` (motion_controller.cpp lines 130-133). -/
def isEnabled (s : Controller) : Bool :=
  s.enabled && s.hasDriver && s.driverEnabled

/-- Model of `MotionController::enable` (motion_controller.cpp lines 105-116). -/
def enable (s : Controller) : Bool × Controller :=
  if ¬s.hasDriver then (false, s)
  else if s.driverEnableOk then
    (true, { s with driverEnabled := true, enabled := true })
  else (false, s)

/-- Model of `MotionController::isMoving` (motion_controller.cpp lines 315-320). -/
def isMoving (s : Controller) : Bool :=
  s.state = MotionState.ACCELERATING ∨ s.state = MotionState.CRUISING ∨
    s.state = MotionState.DECELERATING

/-- Model of `MotionController::calculateTrajectory` (motion_controller.cpp lines
419-428): the body only copies `active_params_.max_velocity` into
`target_velocity_`; no planner is invoked. -/
def calculateTrajectory (s : Controller) : Controller :=
  { s with target_velocity := s.active_params.max_velocity }

/-- Model of `MotionController::startMove` (motion_controller.cpp lines 139-198):
require hardware, auto-enable if configured, store the parameters, compute
the target for the move type, set the driver direction (or go straight to
HOLDING when already at target), copy the commanded velocity, enter
ACCELERATING and start the stepper at the configured floor frequency. -/
def startMove (s : Controller) (p : MotionParams) : Bool × Controller :=
  if ¬(s.hasDriver ∧ s.hasStepper) then (false, s)
  else
    let en :=
      if s.config.enable_on_motion ∧ ¬isEnabled s then enable s
      else (true, s)
    if ¬en.1 then (false, en.2)
    else
      let s1 := { en.2 with active_params := p }
      match p.move_type with
      | MoveType.HOMING => (false, s1)
      | mt =>
        let s2 : Controller :=
          match mt with
          | MoveType.ABSOLUTE => { s1 with target_position := p.target_position }
          | MoveType.RELATIVE =>
            { s1 with
              target_position := i32 (s1.current_position + p.target_position) }
          | _ => { s1 with target_velocity := p.max_velocity }
        if s2.current_position < s2.target_position then
          let s3 := calculateTrajectory
            { s2 with driverDirection := Direction.CW,
                      target_velocity := p.max_velocity }
          let s4 := { s3 with state := MotionState.ACCELERATING }
          (true, stepperStart (stepperSetFreq s4 s4.config.min_velocity))
        else if s2.target_position < s2.current_position then
          let s3 := calculateTrajectory
            { s2 with driverDirection := Direction.CCW,
                      target_velocity := p.max_velocity }
          let s4 := { s3 with state := MotionState.ACCELERATING }
          (true, stepperStart (stepperSetFreq s4 s4.config.min_velocity))
        else
          (true, { s2 with state := MotionState.HOLDING })

/-- Model of `MotionController::stop` (motion_controller.cpp lines 275-284). -/
def stop (s : Controller) : Controller :=
  if s.state = MotionState.IDLE ∨ s.state = MotionState.HOLDING then s
  else { s with state := MotionState.DECELERATING, target_velocity := 0 }

/-- Model of `MotionController::emergencyStop` (motion_controller.cpp lines
266-273). -/
def emergencyStop (s : Controller) : Controller :=
  let s1 := if s.hasStepper then stepperStop s else s
  { s1 with current_velocity := 0, state := MotionState.IDLE }

/-- Model of `MotionController::startVelocity` (motion_controller.cpp lines
228-264). -/
def startVelocity (s : Controller) (velocity : Int) : Bool × Controller :=
  if ¬(s.hasDriver ∧ s.hasStepper) then (false, s)
  else
    let en :=
      if s.config.enable_on_motion ∧ ¬isEnabled s then enable s
      else (true, s)
    if ¬en.1 then (false, en.2)
    else
      let s0 := en.2
      if 0 < velocity then
        let s1 := { s0 with driverDirection := Direction.CW,
                            target_velocity := velocity.toNat }
        let ap := { s1.active_params with max_velocity := s1.target_velocity,
                                          move_type := MoveType.VELOCITY }
        let s2 := { s1 with active_params := ap,
                            state := MotionState.ACCELERATING }
        (true, stepperStart (stepperSetFreq s2 s2.config.min_velocity))
      else if velocity < 0 then
        let s1 := { s0 with driverDirection := Direction.CCW,
                            target_velocity := (-velocity).toNat }
        let ap := { s1.active_params with max_velocity := s1.target_velocity,
                                          move_type := MoveType.VELOCITY }
        let s2 := { s1 with active_params := ap,
                            state := MotionState.ACCELERATING }
        (true, stepperStart (stepperSetFreq s2 s2.config.min_velocity))
      else
        (true, stop s0)

/-- Model of `MotionController::updateVelocity` (motion_controller.cpp lines
430-477): phase-wise velocity integration, then the closing clamp that
floors the velocity at `config_.min_velocity` while in a moving state. -/
def updateVelocity (s : Controller) (dt_us : Nat) : Controller :=
  if dt_us = 0 then s
  else
    let accel :=
      if s.active_params.acceleration = 0 then s.config.default_acceleration
      else s.active_params.acceleration
    let delta_v := accel * dt_us / 1000000
    let s1 :=
      match s.state with
      | MotionState.ACCELERATING =>
        if s.current_velocity < s.target_velocity then
          let v1 := u32 (s.current_velocity + u32 delta_v)
          { s with current_velocity :=
              if s.target_velocity < v1 then s.target_velocity else v1 }
        else s
      | MotionState.DECELERATING =>
        if s.config.min_velocity < s.current_velocity then
          if delta_v < s.current_velocity - s.config.min_velocity then
            { s with current_velocity := s.current_velocity - u32 delta_v }
          else
            { s with current_velocity := s.config.min_velocity }
        else s
      | MotionState.CRUISING =>
        { s with current_velocity := s.target_velocity }
      | _ => s
    if s1.current_velocity < s1.config.min_velocity ∧ isMoving s1 then
      { s1 with current_velocity := s1.config.min_velocity }
    else s1

/-- Model of `MotionController::applyVelocity` (motion_controller.cpp lines
547-554). -/
def applyVelocity (s : Controller) : Controller :=
  if s.hasStepper ∧ isMoving s ∧ s.config.min_velocity ≤ s.current_velocity
  then stepperSetFreq s s.current_velocity
  else s

/-- Model of `MotionController::checkTransitions` (motion_controller.cpp lines
479-545). -/
def checkTransitions (s : Controller) : Controller :=
  let abs_distance := (i32 (s.target_position - s.current_position)).natAbs
  match s.state with
  | MotionState.ACCELERATING =>
    let s1 :=
      if s.target_velocity ≤ s.current_velocity then
        { s with state := MotionState.CRUISING }
      else s
    if s.active_params.move_type ≠ MoveType.VELOCITY then
      let a :=
        if s.active_params.acceleration = 0 then s.config.default_acceleration
        else s.active_params.acceleration
      let decel_distance := s.current_velocity * s.current_velocity / (2 * a)
      if abs_distance ≤ decel_distance then
        { s1 with state := MotionState.DECELERATING }
      else s1
    else s1
  | MotionState.CRUISING =>
    if s.active_params.move_type ≠ MoveType.VELOCITY then
      let a :=
        if s.active_params.acceleration = 0 then s.config.default_acceleration
        else s.active_params.acceleration
      let decel_distance := s.current_velocity * s.current_velocity / (2 * a)
      if abs_distance ≤ decel_distance then
        { s with state := MotionState.DECELERATING }
      else s
    else s
  | MotionState.DECELERATING =>
    if abs_distance ≤ s.config.position_tolerance then
      let s1 := if s.hasStepper then stepperStop s else s
      { s1 with current_velocity := 0, state := MotionState.HOLDING }
    else if s.current_velocity ≤ s.config.min_velocity then
      let s1 := if s.hasStepper then stepperStop s else s
      { s1 with current_velocity := 0, state := MotionState.IDLE }
    else s
  | _ => s

/-- Model of `MotionController::tick` (motion_controller.cpp lines 389-408): bail
out when idle or faulted, else update velocity, push it to the stepper,
read the position back from the driver, and evaluate transitions. -/
def tick (s : Controller) (dt_us : Nat) : Controller :=
  if s.state = MotionState.IDLE ∨ s.state = MotionState.FAULT then s
  else
    let s1 := updateVelocity s dt_us
    let s2 := applyVelocity s1
    let s3 :=
      if s2.hasDriver then { s2 with current_position := s2.driverPosition }
      else s2
    checkTransitions s3

end MotionController

/-- A freshly constructed controller (motion_controller.cpp lines 45-59)
with both hardware collaborators attached and a driver whose `enable()`
succeeds: the state used by the concrete scenarios. -/
def freshController : Controller :=
  { hasDriver := true
    hasStepper := true
    driverEnableOk := true
    driverEnabled := false
    driverDirection := Direction.CW
    driverPosition := 0
    stepperFreq := 0
    stepperRunning := false
    config := DEFAULT_CONFIG
    state := MotionState.IDLE
    current_position := 0
    target_position := 0
    current_velocity := 0
    target_velocity := 0
    active_params :=
      { target_position := 0, max_velocity := 0, acceleration := 0
        deceleration := 0, jerk := 0, profile := ProfileType.TRAPEZOIDAL
        move_type := MoveType.RELATIVE }
    enabled := false }

-- ─────────────────────────────────────────────────────────────────────────────
-- Concrete scenario states (used by the motion-controller claims)
-- ─────────────────────────────────────────────────────────────────────────────

/-- State after `startVelocity(500)` on a fresh controller (motion_controller.cpp lines
228-264): enters ACCELERATING without touching `current_velocity_`. -/
def velocityScenario1 : Controller :=
  (MotionController.startVelocity freshController 500).2

/-- One 10 ms tick later the controller has ramped to the commanded
velocity. -/
def velocityScenario2 : Controller :=
  MotionController.tick velocityScenario1 10000

/-- An absolute move to the current position taken while cruising: the
"already at target" path of `startMove` (motion_controller.cpp lines
177-181) enters HOLDING without touching `current_velocity_`. -/
def velocityScenario3 : Controller :=
  (MotionController.startMove velocityScenario2
    { target_position := 0, max_velocity := 10000, acceleration := 50000
      deceleration := 50000, jerk := 0, profile := ProfileType.TRAPEZOIDAL
      move_type := MoveType.ABSOLUTE }).2

-- ─────────────────────────────────────────────────────────────────────────────
-- Theorems: COBS codec (claims about cobs.c)
-- ─────────────────────────────────────────────────────────────────────────────

/-- The encoder loop always emits at least the final code byte. -/
theorem encodeLoop_ne_nil (input : List Nat) :
    ∀ block, encodeLoop input block ≠ [] := by
  induction input with
  | nil => intro block; simp [encodeLoop]
  | cons b rest ih =>
    intro block
    rw [encodeLoop]
    split
    · simp
    · split
      · simp
      · exact ih (block ++ [b])

/-- Core round-trip invariant: decoding the encoder loop's output restores
the pending block followed by the remaining input, for any sufficient
fuel. -/
theorem decode_encodeLoop (input : List Nat) :
    ∀ (block : List Nat) (fuel : Nat), block.length ≤ 253 →
      (encodeLoop input block).length ≤ fuel →
      decodeLoop fuel (encodeLoop input block) = some (block ++ input) := by
  induction input with
  | nil =>
    intro block fuel hb hfuel
    rw [encodeLoop] at hfuel ⊢
    simp only [List.length_cons] at hfuel
    obtain ⟨f, rfl⟩ : ∃ f, fuel = f + 1 := ⟨fuel - 1, by omega⟩
    rw [decodeLoop]
    simp [List.drop_length, List.take_length, decodeLoop]
  | cons b rest ih =>
    intro block fuel hb hfuel
    by_cases hb0 : b = 0
    · subst hb0
      rw [encodeLoop, if_pos rfl] at hfuel ⊢
      rw [List.cons_append] at hfuel ⊢
      simp only [List.length_cons, List.length_append] at hfuel
      obtain ⟨f, rfl⟩ : ∃ f, fuel = f + 1 := ⟨fuel - 1, by omega⟩
      rw [decodeLoop]
      have hne : block.length + 1 ≠ 0 := by omega
      rw [if_neg hne]
      have hlen : ¬((block ++ encodeLoop rest []).length < block.length + 1 - 1) := by
        simp only [List.length_append]; omega
      rw [if_neg hlen]
      have hdrop : (block ++ encodeLoop rest []).drop (block.length + 1 - 1) =
          encodeLoop rest [] := by
        simp only [Nat.add_sub_cancel]
        exact List.drop_left block (encodeLoop rest [])
      have htake : (block ++ encodeLoop rest []).take (block.length + 1 - 1) =
          block := by
        simp only [Nat.add_sub_cancel]
        exact List.take_left block (encodeLoop rest [])
      rw [hdrop, htake, ih [] f (by simp) (by omega)]
      simp [encodeLoop_ne_nil rest [], show block.length + 1 < 255 by omega]
    · rw [encodeLoop, if_neg hb0] at hfuel ⊢
      by_cases h253 : block.length = 253
      · rw [if_pos h253] at hfuel ⊢
        rw [List.cons_append] at hfuel ⊢
        simp only [List.length_cons, List.length_append] at hfuel
        obtain ⟨f, rfl⟩ : ∃ f, fuel = f + 1 := ⟨fuel - 1, by omega⟩
        rw [decodeLoop]
        rw [if_neg (by omega : ¬(255 = 0))]
        have hlen2 : ((block ++ [b]) ++ encodeLoop rest []).length = 254 +
            (encodeLoop rest []).length := by
          simp only [List.length_append, List.length_cons, List.length_nil,
            h253]
        have hlen : ¬(((block ++ [b]) ++ encodeLoop rest []).length < 255 - 1) := by
          omega
        rw [if_neg hlen]
        have h254 : (block ++ [b]).length = 255 - 1 := by
          simp [List.length_append, h253]
        have hdrop : ((block ++ [b]) ++ encodeLoop rest []).drop (255 - 1) =
            encodeLoop rest [] := by
          rw [← h254]; exact List.drop_left _ _
        have htake : ((block ++ [b]) ++ encodeLoop rest []).take (255 - 1) =
            block ++ [b] := by
          rw [← h254]; exact List.take_left _ _
        rw [hdrop, htake, ih [] f (by simp) (by simp at hfuel ⊢; omega)]
        simp
      · rw [if_neg h253] at hfuel ⊢
        rw [ih (block ++ [b]) fuel (by simp [List.length_append]; omega) hfuel]
        simp

/-- Claim C1: for every byte sequence `x` of length at most 250,
`cobs_decode (cobs_encode x) = x` — the byte-stuffing codec on the host
link is reversible. -/
theorem cobs_roundtrip (x : List Nat) (hlen : x.length ≤ 250) :
    cobs_decode (cobs_encode x) = x := by
  by_cases hx : x.length = 0
  · have : x = [] := List.length_eq_zero.mp hx
    subst this
    simp [cobs_encode, cobs_decode, decodeLoop]
  · rw [cobs_encode, if_neg (by omega)]
    rw [cobs_decode, decode_encodeLoop x [] (encodeLoop x []).length (by simp)
      (le_refl _)]
    simp

/-- Witness for C1 at the concrete input `[1, 2, 0, 3]`. -/
theorem cobs_roundtrip_witness :
    cobs_decode (cobs_encode [1, 2, 0, 3]) = [1, 2, 0, 3] :=
  cobs_roundtrip [1, 2, 0, 3] (by decide)

/-- Counterexample to claim C8 as stated: the input `[3, 5, 0]` contains a
zero byte, yet `cobs_decode` accepts it (returning the two data bytes
`[5, 0]`, i.e. length 2, not the error return 0): a zero byte inside a
block's data section is copied verbatim (cobs.c lines 74-82) and only a
zero in a code-byte position is rejected. -/
theorem cobs_decode_zero_data_byte_accepted :
    (0 ∈ [3, 5, 0] ∧ cobs_decode [3, 5, 0] = [5, 0]) ∧ cobs_decode [3, 5, 0] ≠ [] := by
  decide

/-- The decoder loop's result does not depend on the fuel once the fuel
dominates the input length. -/
theorem decodeLoop_fuel_irrel : ∀ (f₁ : Nat) (l : List Nat) (f₂ : Nat),
    l.length ≤ f₁ → l.length ≤ f₂ → decodeLoop f₁ l = decodeLoop f₂ l := by
  intro f₁
  induction f₁ with
  | zero =>
    intro l f₂ h1 _
    have hl : l = [] := List.length_eq_zero.mp (by omega)
    subst hl
    cases f₂ <;> rfl
  | succ k ih =>
    intro l f₂ h1 h2
    cases l with
    | nil => cases f₂ <;> rfl
    | cons c rest =>
      simp only [List.length_cons] at h1 h2
      obtain ⟨m, rfl⟩ : ∃ m, f₂ = m + 1 := ⟨f₂ - 1, by omega⟩
      rw [decodeLoop, decodeLoop]
      have hdl : (rest.drop (c - 1)).length ≤ k := by
        simp only [List.length_drop]; omega
      have hdm : (rest.drop (c - 1)).length ≤ m := by
        simp only [List.length_drop]; omega
      rw [ih (rest.drop (c - 1)) m hdl hdm]

/-- Claim C8 as amended: `cobs_decode` fails (returns 0, no frame) for
every input whose byte in a code position is zero — in particular any input
starting with a zero byte — and for every input whose terminal block is
truncated (the input ends before the code byte's promised count of data
bytes); failure of the decoder loop propagates through any complete leading
block. -/
theorem cobs_decode_strictness :
    (∀ rest : List Nat, cobs_decode (0 :: rest) = []) ∧
    (∀ (c : Nat) (rest : List Nat), 0 < c → c < 256 →
      rest.length < c - 1 → cobs_decode (c :: rest) = []) ∧
    (∀ (c : Nat) (data rest : List Nat) (fuel : Nat), 0 < c →
      data.length = c - 1 → rest.length ≤ fuel →
      decodeLoop fuel rest = none →
      decodeLoop (c + fuel) (c :: (data ++ rest)) = none) := by
  refine ⟨?_, ?_, ?_⟩
  · intro rest
    rw [cobs_decode]
    simp only [List.length_cons]
    rw [decodeLoop]
    simp
  · intro c rest hc _ htrunc
    rw [cobs_decode]
    simp only [List.length_cons]
    rw [decodeLoop, if_neg (by omega), if_pos htrunc]
    simp
  · intro c data rest fuel hc hdata hrest hnone
    obtain ⟨k, hk⟩ : ∃ k, c + fuel = k + 1 := ⟨c + fuel - 1, by omega⟩
    rw [hk, decodeLoop, if_neg (by omega)]
    have hlen : ¬((data ++ rest).length < c - 1) := by
      simp only [List.length_append]; omega
    rw [if_neg hlen]
    have hdrop : (data ++ rest).drop (c - 1) = rest := by
      rw [← hdata]; exact List.drop_left _ _
    rw [hdrop]
    rw [decodeLoop_fuel_irrel k rest fuel (by omega) hrest, hnone]

/-- Witness for the amended C8 at concrete inputs: a leading zero code byte
and a truncated terminal block are both rejected. -/
theorem cobs_decode_strictness_witness :
    cobs_decode (0 :: [7]) = [] ∧ cobs_decode (5 :: [1]) = [] :=
  ⟨cobs_decode_strictness.1 [7],
   cobs_decode_strictness.2.1 5 [1] (by decide) (by decide) (by decide)⟩

-- ─────────────────────────────────────────────────────────────────────────────
-- Theorems: CRC-16 (claim C7) and pulse generators (claim C9)
-- ─────────────────────────────────────────────────────────────────────────────

/-- Claim C7: `crc16_calculate` with polynomial 0x1021, initial value
0xFFFF, no reflection and no final XOR returns 0x29B1 for the nine ASCII
bytes "123456789", 0xFFFF for the empty sequence, and 0xE1F0 for the
single byte 0x00. -/
theorem crc16_known_answers :
    crc16_calculate [0x31, 0x32, 0x33, 0x34, 0x35, 0x36, 0x37, 0x38, 0x39] =
      0x29B1 ∧
    crc16_calculate [] = 0xFFFF ∧
    crc16_calculate [0x00] = 0xE1F0 :=
  ⟨by decide, by decide, by decide⟩

/-- Claim C9: for both pulse-generator variants (`McpwmStepper`, max
500 kHz; `TimerStepper`, max 50 kHz), `setFrequency(0)` and
`setFrequency(max+1)` return false and leave the stored frequency
unchanged, while `setFrequency(1)` and `setFrequency(max)` return true. -/
theorem setFrequency_range_behavior (f0 g0 : Nat) :
    (McpwmStepper.setFrequency f0 0 = (false, f0) ∧
     McpwmStepper.setFrequency f0 500001 = (false, f0) ∧
     (McpwmStepper.setFrequency f0 1).1 = true ∧
     (McpwmStepper.setFrequency f0 500000).1 = true) ∧
    (TimerStepper.setFrequency g0 0 = (false, g0) ∧
     TimerStepper.setFrequency g0 50001 = (false, g0) ∧
     (TimerStepper.setFrequency g0 1).1 = true ∧
     (TimerStepper.setFrequency g0 50000).1 = true) := by
  simp [McpwmStepper.setFrequency, TimerStepper.setFrequency]

-- ─────────────────────────────────────────────────────────────────────────────
-- Theorems: trajectory executors at concrete failing inputs (claims C2, C6)
-- ─────────────────────────────────────────────────────────────────────────────

/-- Claim C2 (code bug): for the planned move of distance −1000 (velocity
10000, acceleration and deceleration 1000000), the trajectory reaches
COMPLETE after 109 updates of 1000 µs, and every FURTHER call to `update`
reports position +1000 — the stored magnitude WITHOUT the move's sign —
because the early return (trajectory.cpp lines 179-188) omits the
`* direction_` applied by the normal path (line 209) and by
`getCurrentPosition` (lines 318-321), which both report −1000. -/
theorem trap_update_after_complete_drops_sign :
    ((TrapezoidalTrajectory.plan
        { distance := -1000, max_velocity := 10000, acceleration := 1000000
          deceleration := 1000000, start_velocity := 0, end_velocity := 0 }).map
      fun pl =>
        let s := TrapezoidalTrajectory.run (TrapezoidalTrajectory.start pl)
          1000 109
        (s.phase,
         (TrapezoidalTrajectory.update s 1000).2.position,
         (TrapezoidalTrajectory.update
            (TrapezoidalTrajectory.update s 1000).1 1000).2.position,
         TrapezoidalTrajectory.getCurrentPosition s)) =
      some (TrajectoryPhase.COMPLETE, 1000, 1000, -1000) ∧
    ((-1000 : Int) ≠ 1000) :=
  ⟨by decide, by decide⟩

/-- Claim C6 (code bug): for the planned S-curve move (distance 10000,
v_max 5000, a_max 100000, j_max 100000000) advanced with 1000 µs steps, the
velocity reported at the 50th update (phase JERK_ACCEL_FALL, acceleration
already 0) is 4900, and the 51st update crosses into CRUISE snapping the
velocity to `v_achieved = 5000`: a 100-unit step change across the phase
boundary, far above the one-unit continuity bound. -/
theorem scurve_boundary_velocity_jump :
    ((SCurveTrajectory.plan
        { distance := 10000, max_velocity := 5000, max_acceleration := 100000
          max_jerk := 100000000 }).map
      fun pl =>
        let s49 := SCurveTrajectory.run (SCurveTrajectory.start pl) 1000 49
        ((SCurveTrajectory.update s49 1000).2.phase,
         (SCurveTrajectory.update s49 1000).2.velocity,
         (SCurveTrajectory.update s49 1000).2.acceleration,
         (SCurveTrajectory.update (SCurveTrajectory.update s49 1000).1
            1000).2.phase,
         (SCurveTrajectory.update (SCurveTrajectory.update s49 1000).1
            1000).2.velocity)) =
      some (SCurvePhase.JERK_ACCEL_FALL, 4900, 0, SCurvePhase.CRUISE, 5000) ∧
    1 < 5000 - 4900 :=
  ⟨by decide, by decide⟩

-- ─────────────────────────────────────────────────────────────────────────────
-- Theorems: S-curve planner profile selection (claim C3)
-- ─────────────────────────────────────────────────────────────────────────────

/-- Counterexample to claim C3 as stated: for the valid parameter set
(distance 0, v_max 2, a_max 2, j_max 1) the planner uses the reduced
profile, the binary search finds no feasible peak, and the fallback sets
`v_achieved = 100`, which is NOT strictly less than `v_max = 2`. -/
theorem scurve_reduced_exceeds_vmax :
    ((SCurveTrajectory.plan
        { distance := 0, max_velocity := 2, max_acceleration := 2
          max_jerk := 1 }).map
      fun r => (r.timing.is_reduced, r.timing.v_achieved,
                r.params.max_velocity)) = some (true, 100, 2) ∧
    ¬(100 < 2) :=
  ⟨by decide, by decide⟩

/-- Sanity check for the structural integer square root at concrete
values. -/
theorem isqrt_values :
    isqrt 0 = 0 ∧ isqrt 1 = 1 ∧ isqrt 2 = 1 ∧ isqrt 3 = 1 ∧ isqrt 4 = 2 ∧
    isqrt 1000000000000 = 1000000 ∧ isqrt 999999999999 = 999999 ∧
    isqrt 10000000 = 3162 := by
  decide

/-- The bisection loop preserves the lower-bound invariant `lo² ≤ n`. -/
theorem isqrtLoop_sq_le (n : Nat) :
    ∀ (fuel lo hi : Nat), lo * lo ≤ n →
      isqrtLoop n fuel lo hi * isqrtLoop n fuel lo hi ≤ n := by
  intro fuel
  induction fuel with
  | zero => intro lo hi h; simpa [isqrtLoop] using h
  | succ k ih =>
    intro lo hi h
    rw [isqrtLoop]
    split
    · exact h
    · dsimp only
      split
      · exact ih _ _ (by assumption)
      · exact ih _ _ h

/-- If `n < v²` then `⌊√n⌋ < v`. -/
theorem isqrt_lt_of_lt_sq (n v : Nat) (h : n < v * v) : isqrt n < v := by
  by_contra hle
  push_neg at hle
  have h1 : isqrt n * isqrt n ≤ n := isqrtLoop_sq_le n 128 0 n (by simp)
  have h2 : v * v ≤ isqrt n * isqrt n := Nat.mul_le_mul hle hle
  omega

/-- The binary search of `computeReducedProfile` never returns a candidate
above `vmax`: `(v_low + v_high)/2` stays at most `vmax` while
`v_low ≤ vmax + 1` and `v_high ≤ vmax` (wrapping only lowers values). -/
theorem searchLoop_le (j a dist vmax : Nat) :
    ∀ (fuel lo hi acc : Nat), lo ≤ vmax + 1 → hi ≤ vmax → acc ≤ vmax →
      searchLoop j a dist fuel lo hi acc ≤ vmax := by
  intro fuel
  induction fuel with
  | zero => intro lo hi acc _ _ h; simpa [searchLoop] using h
  | succ k ih =>
    intro lo hi acc hlo hhi hacc
    simp only [searchLoop]
    have hvt : u32 (lo + hi) / 2 ≤ vmax := by
      have : u32 (lo + hi) ≤ lo + hi := Nat.mod_le _ _
      omega
    split
    · exact hacc
    · split
      · refine ih _ _ _ ?_ hhi hvt
        have : u32 (u32 (lo + hi) / 2 + 1) ≤ u32 (lo + hi) / 2 + 1 :=
          Nat.mod_le _ _
        omega
      · exact ih _ _ _ hlo (by omega) hacc

/-- The reduced profile always reports `is_reduced = true`. -/
theorem computeReducedProfile_is_reduced (p : SCurveParams) (dist : Nat) :
    (computeReducedProfile p dist).is_reduced = true := rfl

/-- The reduced profile's achieved velocity is the binary-search result
(bounded by `max_velocity`) or the fallback 100. -/
theorem computeReducedProfile_v_achieved_le (p : SCurveParams) (dist : Nat) :
    (computeReducedProfile p dist).v_achieved ≤ max p.max_velocity 100 := by
  show (let found := searchLoop p.max_jerk p.max_acceleration dist 32 0
          p.max_velocity 0
        if found = 0 then 100 else found) ≤ max p.max_velocity 100
  dsimp only
  split
  · exact le_max_right _ _
  · exact le_trans
      (searchLoop_le p.max_jerk p.max_acceleration dist p.max_velocity
        32 0 p.max_velocity 0 (by omega) (le_refl _) (by omega))
      (le_max_left _ _)

/-- Claim C3 as amended: for every valid S-curve parameter set, the full
7-segment profile is chosen iff `2·v_jerk < v_max` (with
`v_jerk = a_max²/(2·j_max)` in the planner's integer arithmetic) and the
move admits the symmetric acceleration and deceleration distances with a
non-negative cruise remainder; in every other case the reduced profile is
used, and then `v_achieved` is at most `max v_max 100` — bounded by
`v_max` when the binary search finds a feasible peak, and the fallback
100 otherwise (which may equal or exceed `v_max`, so strict
`v_achieved < v_max` does not hold in general). -/
theorem scurve_plan_characterization (p : SCurveParams) (r : SCurvePlanned)
    (hv : p.max_velocity ≠ 0) (ha : p.max_acceleration ≠ 0)
    (hj : p.max_jerk ≠ 0) (hr : SCurveTrajectory.plan p = some r) :
    (r.timing.is_reduced = false ↔
      (2 * (p.max_acceleration * p.max_acceleration / (2 * p.max_jerk)) <
          p.max_velocity ∧
        0 ≤ fullCruiseDist { p with distance := (p.distance.natAbs : Int) }
              p.distance.natAbs)) ∧
    (r.timing.is_reduced = true →
      r.timing.v_achieved ≤ max p.max_velocity 100) := by
  rw [SCurveTrajectory.plan, if_neg (by tauto)] at hr
  obtain rfl := Option.some.inj hr
  by_cases hred : p.max_velocity ≤
      2 * (p.max_acceleration * p.max_acceleration / (2 * p.max_jerk))
  · rw [if_pos hred]
    refine ⟨⟨fun hfalse => ?_, fun hcases => ?_⟩, fun _ => ?_⟩
    · rw [computeReducedProfile_is_reduced] at hfalse; cases hfalse
    · omega
    · exact computeReducedProfile_v_achieved_le _ _
  · rw [if_neg hred]
    rw [computeFullProfile]
    by_cases hc : fullCruiseDist { p with distance := (p.distance.natAbs : Int) }
        p.distance.natAbs < 0
    · rw [if_pos hc]
      refine ⟨⟨fun hfalse => ?_, fun hcases => ?_⟩, fun _ => ?_⟩
      · rw [computeReducedProfile_is_reduced] at hfalse; cases hfalse
      · exact absurd hcases.2 (by omega)
      · exact computeReducedProfile_v_achieved_le _ _
    · rw [if_neg hc]
      exact ⟨⟨fun _ => ⟨by omega, by omega⟩, fun _ => rfl⟩,
        fun hfalse => by cases hfalse⟩

/-- Witness for the amended C3 at the concrete full-profile parameter set
(distance 10000, v_max 5000, a_max 100000, j_max 100000000) and its planned
record. -/
theorem scurve_plan_characterization_witness :
    (({ t_jerk_accel := 1000, t_const_accel := 49000, t_cruise := 1949600
        t_jerk_decel := 1000, t_const_decel := 49000, total_time_us := 2051600
        v_achieved := 5000, a_achieved := 100000,
        is_reduced := false } : SCurveTiming).is_reduced = false ↔
      (2 * (100000 * 100000 / (2 * 100000000)) < 5000 ∧
        0 ≤ fullCruiseDist
              { distance := ((10000 : Int).natAbs : Int), max_velocity := 5000
                max_acceleration := 100000, max_jerk := 100000000 }
              (10000 : Int).natAbs)) ∧
    (({ t_jerk_accel := 1000, t_const_accel := 49000, t_cruise := 1949600
        t_jerk_decel := 1000, t_const_decel := 49000, total_time_us := 2051600
        v_achieved := 5000, a_achieved := 100000,
        is_reduced := false } : SCurveTiming).is_reduced = true →
      ({ t_jerk_accel := 1000, t_const_accel := 49000, t_cruise := 1949600
         t_jerk_decel := 1000, t_const_decel := 49000, total_time_us := 2051600
         v_achieved := 5000, a_achieved := 100000,
         is_reduced := false } : SCurveTiming).v_achieved ≤ max 5000 100) :=
  scurve_plan_characterization
    { distance := 10000, max_velocity := 5000, max_acceleration := 100000
      max_jerk := 100000000 }
    { params := { distance := 10000, max_velocity := 5000
                  max_acceleration := 100000, max_jerk := 100000000 }
      timing := { t_jerk_accel := 1000, t_const_accel := 49000
                  t_cruise := 1949600, t_jerk_decel := 1000
                  t_const_decel := 49000, total_time_us := 2051600
                  v_achieved := 5000, a_achieved := 100000
                  is_reduced := false }
      direction := 1, t_end_j1 := 1000, t_end_a := 50000, t_end_j2 := 51000
      t_end_c := 2000600, t_end_j3 := 2001600, t_end_d := 2050600 }
    (by decide) (by decide) (by decide) (by decide)

-- ─────────────────────────────────────────────────────────────────────────────
-- Theorems: trapezoidal planner (claim C4)
-- ─────────────────────────────────────────────────────────────────────────────

/-- Arithmetic core of the triangular branch: when the acceleration and
deceleration distances (in the planner's integer arithmetic) exceed the
move, the triangular peak `⌊√(2·dist·a·d/(a+d))⌋` is strictly below the
commanded velocity. -/
theorem triangular_peak_lt (dist v a d : Nat) (ha : 0 < a) (hd : 0 < d)
    (hlt : dist < v * v / (2 * a) + v * v / (2 * d)) :
    isqrt (2 * dist * a * d / (a + d)) < v := by
  apply isqrt_lt_of_lt_sq
  have hA : v * v / (2 * a) * (2 * a) ≤ v * v := Nat.div_mul_le_self _ _
  have hD : v * v / (2 * d) * (2 * d) ≤ v * v := Nat.div_mul_le_self _ _
  have chain : 2 * dist * a * d + 2 * a * d ≤ v * v * (a + d) := by
    calc 2 * dist * a * d + 2 * a * d = (dist + 1) * (2 * a * d) := by ring
      _ ≤ (v * v / (2 * a) + v * v / (2 * d)) * (2 * a * d) :=
          Nat.mul_le_mul_right _ (by omega)
      _ = (v * v / (2 * a) * (2 * a)) * d + (v * v / (2 * d) * (2 * d)) * a := by
          ring
      _ ≤ (v * v) * d + (v * v) * a :=
          Nat.add_le_add (Nat.mul_le_mul_right _ hA) (Nat.mul_le_mul_right _ hD)
      _ = v * v * (a + d) := by ring
  have hpos : 0 < 2 * a * d := by positivity
  have key : 2 * dist * a * d < v * v * (a + d) := by omega
  exact (Nat.div_lt_iff_lt_mul (by omega)).mpr key

/-- Claim C4: for all valid trapezoidal parameters (nonzero velocity and
acceleration, deceleration inheriting the acceleration when zero, distance
within `int32` range): when `|distance| ≥ v²/(2a) + v²/(2d)` the plan is a
trapezoid (`is_triangle = false`, `peak_velocity = v`); otherwise it is a
triangle (`is_triangle = true`) with `peak_velocity < v`. -/
theorem trap_plan_triangle_characterization (p : TrajectoryParams)
    (r : TrapPlanned) (hv : p.max_velocity ≠ 0) (ha : p.acceleration ≠ 0)
    (_hd32 : p.distance.natAbs < 2 ^ 31)
    (hr : TrapezoidalTrajectory.plan p = some r) :
    (p.max_velocity * p.max_velocity / (2 * p.acceleration) +
        p.max_velocity * p.max_velocity /
          (2 * (if p.deceleration = 0 then p.acceleration
                else p.deceleration)) ≤ p.distance.natAbs →
      r.timing.is_triangle = false ∧
        r.timing.peak_velocity = p.max_velocity) ∧
    (p.distance.natAbs <
        p.max_velocity * p.max_velocity / (2 * p.acceleration) +
          p.max_velocity * p.max_velocity /
            (2 * (if p.deceleration = 0 then p.acceleration
                  else p.deceleration)) →
      r.timing.is_triangle = true ∧
        r.timing.peak_velocity < p.max_velocity) := by
  rw [TrapezoidalTrajectory.plan, if_neg (by tauto)] at hr
  obtain rfl := Option.some.inj hr
  dsimp only
  constructor
  · intro hle
    rw [if_pos hle]
    exact ⟨rfl, rfl⟩
  · intro hgt
    rw [if_neg (by omega)]
    refine ⟨rfl, ?_⟩
    show (let v_peak0 := isqrt (2 * (p.distance.natAbs : Int).toNat *
            p.acceleration *
            (if p.deceleration = 0 then p.acceleration else p.deceleration) /
            (p.acceleration +
              (if p.deceleration = 0 then p.acceleration
               else p.deceleration)))
          if p.max_velocity < v_peak0 then p.max_velocity else v_peak0) <
        p.max_velocity
    have hlt : isqrt (2 * (p.distance.natAbs : Int).toNat * p.acceleration *
        (if p.deceleration = 0 then p.acceleration else p.deceleration) /
        (p.acceleration +
          (if p.deceleration = 0 then p.acceleration
           else p.deceleration))) < p.max_velocity := by
      rw [Int.toNat_natCast]
      refine triangular_peak_lt _ _ _ _ (by omega) ?_ (by omega)
      split <;> omega
    dsimp only
    rw [if_neg (by omega)]
    exact hlt

/-- Witness for C4 at the short move (distance 100, velocity 10000,
acceleration 100000, deceleration 0 inheriting 100000): the triangular
branch with peak 3162 < 10000. -/
theorem trap_plan_triangle_characterization_witness :
    (10000 * 10000 / (2 * 100000) +
        10000 * 10000 /
          (2 * (if (0 : Nat) = 0 then 100000 else (0 : Nat))) ≤
        (100 : Int).natAbs →
      ({ accel_time_us := 31620, cruise_time_us := 0, decel_time_us := 31620
         total_time_us := 63240, accel_distance := 49, cruise_distance := 0
         decel_distance := 51, peak_velocity := 3162,
         is_triangle := true } : TrajectoryTiming).is_triangle = false ∧
        ({ accel_time_us := 31620, cruise_time_us := 0, decel_time_us := 31620
           total_time_us := 63240, accel_distance := 49, cruise_distance := 0
           decel_distance := 51, peak_velocity := 3162,
           is_triangle := true } : TrajectoryTiming).peak_velocity = 10000) ∧
    ((100 : Int).natAbs <
        10000 * 10000 / (2 * 100000) +
          10000 * 10000 /
            (2 * (if (0 : Nat) = 0 then 100000 else (0 : Nat))) →
      ({ accel_time_us := 31620, cruise_time_us := 0, decel_time_us := 31620
         total_time_us := 63240, accel_distance := 49, cruise_distance := 0
         decel_distance := 51, peak_velocity := 3162,
         is_triangle := true } : TrajectoryTiming).is_triangle = true ∧
        ({ accel_time_us := 31620, cruise_time_us := 0, decel_time_us := 31620
           total_time_us := 63240, accel_distance := 49, cruise_distance := 0
           decel_distance := 51, peak_velocity := 3162,
           is_triangle := true } : TrajectoryTiming).peak_velocity < 10000) :=
  trap_plan_triangle_characterization
    { distance := 100, max_velocity := 10000, acceleration := 100000
      deceleration := 0, start_velocity := 0, end_velocity := 0 }
    { params := { distance := 100, max_velocity := 10000
                  acceleration := 100000, deceleration := 100000
                  start_velocity := 0, end_velocity := 0 }
      timing := { accel_time_us := 31620, cruise_time_us := 0
                  decel_time_us := 31620, total_time_us := 63240
                  accel_distance := 49, cruise_distance := 0
                  decel_distance := 51, peak_velocity := 3162
                  is_triangle := true }
      direction := 1 }
    (by decide) (by decide) (by decide) (by decide)



/-- updateVelocity only rewrites the velocity: state and configuration are
untouched (motion_controller.cpp lines 430-477 assign only
`current_velocity_`). -/
theorem updateVelocity_state_config (s : Controller) (dt : Nat) :
    (MotionController.updateVelocity s dt).state = s.state ∧
    (MotionController.updateVelocity s dt).config = s.config := by
  cases hst : s.state <;>
    simp only [MotionController.updateVelocity, hst] <;>
    (repeat' split) <;> constructor <;> simp_all

/-- The closing clamp of `updateVelocity` (lines 474-476): after any tick
slice with `dt > 0` taken in a moving state, the velocity is at least the
configured floor. -/
theorem updateVelocity_floor (s : Controller) (dt : Nat) (hdt : ¬dt = 0)
    (hmov : MotionController.isMoving s = true) :
    s.config.min_velocity ≤
      (MotionController.updateVelocity s dt).current_velocity := by
  cases hst : s.state <;>
    simp only [MotionController.isMoving, hst] at hmov <;>
    try (exact absurd hmov (by decide))
  all_goals
    simp only [MotionController.updateVelocity, hst, if_neg hdt]
  all_goals
    (repeat' split) <;> simp_all [MotionController.isMoving, hst]

/-- applyVelocity only rewrites the stepper frequency. -/
theorem applyVelocity_preserves (s : Controller) :
    (MotionController.applyVelocity s).state = s.state ∧
    (MotionController.applyVelocity s).config = s.config ∧
    (MotionController.applyVelocity s).current_velocity =
      s.current_velocity := by
  unfold MotionController.applyVelocity MotionController.stepperSetFreq
  (repeat' split) <;> exact ⟨rfl, rfl, rfl⟩

/-- When `checkTransitions` leaves the axis in a moving state it has not
touched the velocity or the configuration, and the pre-state was already
moving. -/
theorem checkTransitions_moving (s : Controller)
    (h : MotionController.isMoving (MotionController.checkTransitions s) =
      true) :
    (MotionController.checkTransitions s).current_velocity =
      s.current_velocity ∧
    (MotionController.checkTransitions s).config = s.config ∧
    MotionController.isMoving s = true := by
  cases hst : s.state <;>
    simp only [MotionController.checkTransitions, hst,
      MotionController.stepperStop] at h ⊢ <;>
    (repeat' split) <;>
    simp_all [MotionController.isMoving, hst]

/-- Lemma: `checkTransitions` zeroes the velocity whenever it newly enters
HOLDING or IDLE. -/
theorem checkTransitions_to_rest (s : Controller) :
    ((MotionController.checkTransitions s).state = MotionState.HOLDING →
      s.state = MotionState.HOLDING ∨
        (MotionController.checkTransitions s).current_velocity = 0) ∧
    ((MotionController.checkTransitions s).state = MotionState.IDLE →
      s.state = MotionState.IDLE ∨
        (MotionController.checkTransitions s).current_velocity = 0) := by
  cases hst : s.state <;>
    simp only [MotionController.checkTransitions, hst,
      MotionController.stepperStop] <;>
    (repeat' split) <;> simp_all


/-- Claim C5 as amended: after every tick with `dt_us > 0`, whenever the
axis is left in a moving state (ACCELERATING, CRUISING, DECELERATING) the
velocity is at least `config.min_velocity`; when a tick newly moves the
axis into HOLDING or IDLE it zeroes the velocity; and `emergencyStop`
always leaves IDLE with zero velocity.  (States entered directly by
`startMove`/`startVelocity` are exempt: those commands do not touch
`current_velocity_`, which the counterexample exhibits.) -/
theorem motion_tick_velocity_floor (s : Controller) (dt_us : Nat)
    (hdt : 0 < dt_us) :
    (MotionController.isMoving (MotionController.tick s dt_us) = true →
      (MotionController.tick s dt_us).config.min_velocity ≤
        (MotionController.tick s dt_us).current_velocity) ∧
    ((MotionController.tick s dt_us).state = MotionState.HOLDING →
      s.state = MotionState.HOLDING ∨
        (MotionController.tick s dt_us).current_velocity = 0) ∧
    ((MotionController.tick s dt_us).state = MotionState.IDLE →
      s.state = MotionState.IDLE ∨
        (MotionController.tick s dt_us).current_velocity = 0) ∧
    (MotionController.emergencyStop s).state = MotionState.IDLE ∧
    (MotionController.emergencyStop s).current_velocity = 0 := by
  have hes : (MotionController.emergencyStop s).state = MotionState.IDLE ∧
      (MotionController.emergencyStop s).current_velocity = 0 := by
    unfold MotionController.emergencyStop MotionController.stepperStop
    split <;> exact ⟨rfl, rfl⟩
  by_cases hbail : s.state = MotionState.IDLE ∨ s.state = MotionState.FAULT
  · have htick : MotionController.tick s dt_us = s := by
      unfold MotionController.tick
      rw [if_pos hbail]
    rw [htick]
    rcases hbail with h | h <;>
      exact ⟨by simp [MotionController.isMoving, h], by simp [h],
             by simp [h], hes.1, hes.2⟩
  · refine ⟨?_, ?_, ?_, hes.1, hes.2⟩ <;>
      (unfold MotionController.tick; rw [if_neg hbail]; dsimp only) <;>
      (have hu := updateVelocity_state_config s dt_us;
       have hufl := updateVelocity_floor s dt_us (by omega);
       generalize hgen : MotionController.updateVelocity s dt_us = x1 at hu hufl ⊢;
       have hap := applyVelocity_preserves x1;
       generalize happ : MotionController.applyVelocity x1 = x2 at hap ⊢;
       generalize hx3g : (if x2.hasDriver = true then
           { x2 with current_position := x2.driverPosition } else x2) = x3 at *;
       have hpc : x3.state = x2.state ∧ x3.config = x2.config ∧
           x3.current_velocity = x2.current_velocity := by
         rw [← hx3g]; split <;> exact ⟨rfl, rfl, rfl⟩)
    · -- velocity floor in moving states
      intro hmv
      obtain ⟨hv_eq, hc_eq, hmv3⟩ := checkTransitions_moving x3 hmv
      have hms : MotionController.isMoving s = true := by
        unfold MotionController.isMoving at hmv3 ⊢
        rw [hpc.1, hap.1, hu.1] at hmv3
        exact hmv3
      rw [hv_eq, hc_eq, hpc.2.1, hpc.2.2, hap.2.1, hap.2.2, hu.2]
      exact hufl hms
    · -- a tick entering HOLDING zeroes the velocity
      intro hh
      rcases (checkTransitions_to_rest x3).1 hh with h | h
      · left
        rw [← hu.1, ← hap.1, ← hpc.1]
        exact h
      · right
        exact h
    · -- a tick entering IDLE zeroes the velocity
      intro hh
      rcases (checkTransitions_to_rest x3).2 hh with h | h
      · left
        rw [← hu.1, ← hap.1, ← hpc.1]
        exact h
      · right
        exact h


/-- The stepper bookkeeping at the end of `startMove` (set the floor
frequency, start) never touches the axis state. -/
theorem stepperCalls_state (x : Controller) (f : Nat) :
    (MotionController.stepperStart (MotionController.stepperSetFreq x f)).state
      = x.state := by
  unfold MotionController.stepperStart MotionController.stepperSetFreq
  (repeat' split) <;> rfl

/-- Nor the commanded velocity. -/
theorem stepperCalls_target (x : Controller) (f : Nat) :
    (MotionController.stepperStart
      (MotionController.stepperSetFreq x f)).target_velocity
      = x.target_velocity := by
  unfold MotionController.stepperStart MotionController.stepperSetFreq
  (repeat' split) <;> rfl

/-- Claim C10: `startMove` performs no motion-parameter validation of its
own: for every `MotionParams` with move type ABSOLUTE or RELATIVE, a
nonzero distance to target, hardware attached, and driver enable available,
`startMove` returns true and enters ACCELERATING — even when
`max_velocity` or `acceleration` is zero — and `calculateTrajectory` only
copies `max_velocity` into `target_velocity_` (no planner is invoked). -/
theorem startMove_no_validation (s : Controller) (p : MotionParams)
    (hdrv : s.hasDriver = true) (hstep : s.hasStepper = true)
    (hen : s.config.enable_on_motion = false ∨
      MotionController.isEnabled s = true ∨ s.driverEnableOk = true)
    (hmt : p.move_type = MoveType.ABSOLUTE ∨ p.move_type = MoveType.RELATIVE)
    (htgt : (if p.move_type = MoveType.ABSOLUTE then p.target_position
             else i32 (s.current_position + p.target_position)) ≠
            s.current_position) :
    (MotionController.startMove s p).1 = true ∧
    (MotionController.startMove s p).2.state = MotionState.ACCELERATING ∧
    (MotionController.startMove s p).2.target_velocity = p.max_velocity := by
  have hok : s.config.enable_on_motion = true ∧
      MotionController.isEnabled s = false → s.driverEnableOk = true := by
    intro hcond
    rcases hen with h | h | h
    · rw [h] at hcond; exact absurd hcond.1 (by simp)
    · rw [h] at hcond; exact absurd hcond.2 (by simp)
    · exact h
  rcases hmt with hmt | hmt
  · replace htgt : p.target_position ≠ s.current_position := by
      simpa [hmt] using htgt
    rcases lt_trichotomy s.current_position p.target_position with h | h | h
    · by_cases hcond : s.config.enable_on_motion = true ∧
          MotionController.isEnabled s = false
      · simp [MotionController.startMove, MotionController.enable,
          MotionController.calculateTrajectory, stepperCalls_state,
          stepperCalls_target, hdrv, hstep, hmt, hcond, hok hcond, h]
      · simp [MotionController.startMove, MotionController.enable,
          MotionController.calculateTrajectory, stepperCalls_state,
          stepperCalls_target, hdrv, hstep, hmt, hcond, h]
    · exact absurd h.symm htgt
    · have hnl : ¬s.current_position < p.target_position := by omega
      by_cases hcond : s.config.enable_on_motion = true ∧
          MotionController.isEnabled s = false
      · simp [MotionController.startMove, MotionController.enable,
          MotionController.calculateTrajectory, stepperCalls_state,
          stepperCalls_target, hdrv, hstep, hmt, hcond, hok hcond, h, hnl]
      · simp [MotionController.startMove, MotionController.enable,
          MotionController.calculateTrajectory, stepperCalls_state,
          stepperCalls_target, hdrv, hstep, hmt, hcond, h, hnl]
  · replace htgt : i32 (s.current_position + p.target_position) ≠
        s.current_position := by
      simpa [hmt] using htgt
    rcases lt_trichotomy s.current_position
        (i32 (s.current_position + p.target_position)) with h | h | h
    · by_cases hcond : s.config.enable_on_motion = true ∧
          MotionController.isEnabled s = false
      · simp [MotionController.startMove, MotionController.enable,
          MotionController.calculateTrajectory, stepperCalls_state,
          stepperCalls_target, hdrv, hstep, hmt, hcond, hok hcond, h]
      · simp [MotionController.startMove, MotionController.enable,
          MotionController.calculateTrajectory, stepperCalls_state,
          stepperCalls_target, hdrv, hstep, hmt, hcond, h]
    · exact absurd h.symm htgt
    · have hnl : ¬s.current_position <
          i32 (s.current_position + p.target_position) := by omega
      by_cases hcond : s.config.enable_on_motion = true ∧
          MotionController.isEnabled s = false
      · simp [MotionController.startMove, MotionController.enable,
          MotionController.calculateTrajectory, stepperCalls_state,
          stepperCalls_target, hdrv, hstep, hmt, hcond, hok hcond, h, hnl]
      · simp [MotionController.startMove, MotionController.enable,
          MotionController.calculateTrajectory, stepperCalls_state,
          stepperCalls_target, hdrv, hstep, hmt, hcond, h, hnl]


/-- Counterexample to claim C5 as stated: `startVelocity(500)` on a fresh
controller enters ACCELERATING with velocity still 0, below the configured
floor of 100 (the command never touches `current_velocity_`); and after one
tick reaches CRUISING at 500, a zero-distance absolute move enters HOLDING
with the velocity still 500, not zero. -/
theorem motion_velocity_floor_counterexample :
    (velocityScenario1.state = MotionState.ACCELERATING ∧
      MotionController.isMoving velocityScenario1 = true ∧
      velocityScenario1.current_velocity = 0 ∧
      velocityScenario1.config.min_velocity = 100) ∧
    (velocityScenario3.state = MotionState.HOLDING ∧
      velocityScenario3.current_velocity = 500) :=
  ⟨by decide, by decide⟩

/-- Witness for the amended C5 at the concrete reachable state
`velocityScenario1` and a 1000 µs tick. -/
theorem motion_tick_velocity_floor_witness :
    (MotionController.isMoving (MotionController.tick velocityScenario1 1000) =
        true →
      (MotionController.tick velocityScenario1 1000).config.min_velocity ≤
        (MotionController.tick velocityScenario1 1000).current_velocity) ∧
    ((MotionController.tick velocityScenario1 1000).state =
        MotionState.HOLDING →
      velocityScenario1.state = MotionState.HOLDING ∨
        (MotionController.tick velocityScenario1 1000).current_velocity = 0) ∧
    ((MotionController.tick velocityScenario1 1000).state = MotionState.IDLE →
      velocityScenario1.state = MotionState.IDLE ∨
        (MotionController.tick velocityScenario1 1000).current_velocity = 0) ∧
    (MotionController.emergencyStop velocityScenario1).state =
      MotionState.IDLE ∧
    (MotionController.emergencyStop velocityScenario1).current_velocity = 0 :=
  motion_tick_velocity_floor velocityScenario1 1000 (by decide)

/-- Witness for C10 at a fresh controller and a move whose `max_velocity`
and `acceleration` are both zero. -/
theorem startMove_no_validation_witness :
    (MotionController.startMove freshController
      { target_position := 1000, max_velocity := 0, acceleration := 0
        deceleration := 0, jerk := 0, profile := ProfileType.TRAPEZOIDAL
        move_type := MoveType.ABSOLUTE }).1 = true ∧
    (MotionController.startMove freshController
      { target_position := 1000, max_velocity := 0, acceleration := 0
        deceleration := 0, jerk := 0, profile := ProfileType.TRAPEZOIDAL
        move_type := MoveType.ABSOLUTE }).2.state =
      MotionState.ACCELERATING ∧
    (MotionController.startMove freshController
      { target_position := 1000, max_velocity := 0, acceleration := 0
        deceleration := 0, jerk := 0, profile := ProfileType.TRAPEZOIDAL
        move_type := MoveType.ABSOLUTE }).2.target_velocity = 0 :=
  startMove_no_validation freshController
    { target_position := 1000, max_velocity := 0, acceleration := 0
      deceleration := 0, jerk := 0, profile := ProfileType.TRAPEZOIDAL
      move_type := MoveType.ABSOLUTE }
    (by decide) (by decide) (by decide) (by decide) (by decide)

end Usd
